import Mathlib

/-!
Shallow embedding of the YouVersion API client
(`youversion/youversion.py`) and proofs about the behaviour of its
validation, caching and request logic.

JSON payloads are modelled as structures whose fields are `Option`-typed:
`none` stands for an absent key, so that Python's `dict.get(key, default)`
becomes `Option.getD`.  The remote service is modelled as a `Server`
value holding the response each resource would produce, `none` standing
for a non-success HTTP status (on which the underlying `_get` raises).
Exceptions are modelled with `Except`; every stateful operation returns
its outcome together with the client state as it stands when the
operation returns or raises.  The client state carries a `requestLog`
recording every HTTP request issued, in order, so that statements about
network traffic ("no network call is made") are statements about the log.
-/

deriving instance DecidableEq for Except

/-- The exception kinds the client can raise: the four library exception
classes of the source plus the transport error surfaced by
`response.raise_for_status()` and the `TypeError` Python raises when the
version-list response lacks a `data` key (iterating over `None`). -/
inductive Exc where
  | unsupportedLanguage
  | invalidImageSize
  | invalidBibleVersion
  | dayOutOfBounds
  | httpError
  | typeError
deriving DecidableEq, Repr

/-- JSON payload describing one Bible version, as consumed by
`BibleVersion.__init__`: each field is the value under the corresponding
key, `none` when the key is absent. -/
structure VersionJson where
  id : Option Int
  title : Option String
  abbreviation : Option String
  local_title : Option String
  local_abbreviation : Option String
  copyright_short : Option String
deriving DecidableEq, Repr

/-- `BibleVersion`: fields as set by `BibleVersion.__init__`. -/
structure BibleVersion where
  id : Option Int
  title : String
  abbreviation : String
  local_title : String
  local_abbreviation : String
  copyright : String
deriving DecidableEq, Repr

/-- `BibleVersion.__init__`: reads each key with a default
(`json.get('id', None)`, the rest defaulting to the empty string). -/
def BibleVersion.ofJson (json : VersionJson) : BibleVersion :=
  { id := json.id
    title := json.title.getD ""
    abbreviation := json.abbreviation.getD ""
    local_title := json.local_title.getD ""
    local_abbreviation := json.local_abbreviation.getD ""
    copyright := json.copyright_short.getD "" }

/-- `BibleVersion.KJV()`: the hardcoded King James Version. -/
def BibleVersion.KJV : BibleVersion :=
  BibleVersion.ofJson
    { id := some 1
      title := some "King James Version"
      abbreviation := some "KJV"
      local_title := some "King James Version"
      local_abbreviation := some "KJV"
      copyright_short := some "Crown Copyright in UK" }

/-- JSON payload for a verse, as consumed by `Verse.__init__`. -/
structure VerseJson where
  human_reference : Option String
  text : Option String
  html : Option String
  url : Option String
  usfms : Option (List String)
deriving DecidableEq, Repr

/-- `Verse`: fields as set by `Verse.__init__`. -/
structure Verse where
  bible_version : BibleVersion
  reference : String
  text : String
  html : String
  url : String
  usfms : List String
deriving DecidableEq, Repr

/-- `Verse.__init__`: each field read with `json.get(key, default)`. -/
def Verse.ofJson (bible_version : BibleVersion) (json : VerseJson) : Verse :=
  { bible_version
    reference := json.human_reference.getD ""
    text := json.text.getD ""
    html := json.html.getD ""
    url := json.url.getD ""
    usfms := json.usfms.getD [] }

/-- JSON payload for a verse image, as consumed by `Image.__init__`. -/
structure ImageJson where
  url : Option String
  attribution : Option String
deriving DecidableEq, Repr

/-- `Image`: fields as set by `Image.__init__`; `_url` is the template
URL, prefixed with the scheme. -/
structure Image where
  verse : Verse
  _url : String
  attribution : String
deriving DecidableEq, Repr

/-- `Image.MAX_SIZE`. -/
def Image.MAX_SIZE : Int := 1280

/-- Replacement loop over the character list: on a match of the pattern
at the current position, emit the replacement and continue after the
matched characters (the replacement itself is not rescanned), exactly as
Python's `str.replace` does for a non-empty pattern.  The fuel argument
only makes the recursion structural; it never runs out when it starts at
the list's length and the pattern is non-empty. -/
def replaceAux (pat rep : List Char) : Nat → List Char → List Char
  | _, [] => []
  | 0, s => s
  | n + 1, c :: rest =>
    if pat.isPrefixOf (c :: rest) then
      rep ++ replaceAux pat rep n ((c :: rest).drop pat.length)
    else
      c :: replaceAux pat rep n rest

/-- Python `str.replace(pattern, replacement)` for a non-empty pattern:
every non-overlapping occurrence, scanned left to right, is replaced.
(The only patterns used by the source are the non-empty literals
`'{width}'` and `'{height}'`.) -/
def pyReplace (s pattern replacement : String) : String :=
  ⟨replaceAux pattern.data replacement.data s.data.length s.data⟩

/-- `Image.__init__`: `self._url = f'https:{json.get("url", "")}'`. -/
def Image.ofJson (verse : Verse) (json : ImageJson) : Image :=
  { verse
    _url := "https:" ++ json.url.getD ""
    attribution := json.attribution.getD "" }

/-- `Image._check_size`: raises `InvalidImageSize` when the size exceeds
`MAX_SIZE`. -/
def Image._check_size (size : Int) : Except Exc Unit :=
  if size > Image.MAX_SIZE then .error .invalidImageSize else .ok ()

/-- `Image.url(width, height)`: checks both dimensions, then substitutes
them into the template (Python `str.replace` replaces every
occurrence). -/
def Image.url (img : Image) (width height : Int) : Except Exc String :=
  match Image._check_size width with
  | .error e => .error e
  | .ok _ =>
    match Image._check_size height with
    | .error e => .error e
    | .ok _ =>
      .ok (pyReplace (pyReplace img._url "{width}" (toString width))
            "{height}" (toString height))

/-- `Image.square_url(size)`: delegates to `url(size, size)`. -/
def Image.square_url (img : Image) (size : Int) : Except Exc String :=
  img.url size size

/-- JSON payload for a verse of the day, as consumed by
`VerseOfTheDay.__init__`: `day`, and the nested `verse` and `image`
objects (absent keys default to `{}` in the source). -/
structure VotdJson where
  day : Option Int
  verse : Option VerseJson
  image : Option ImageJson
deriving DecidableEq, Repr

/-- The empty JSON object `{}` used as the default for a missing nested
`verse`. -/
def emptyVerseJson : VerseJson :=
  { human_reference := none, text := none, html := none, url := none, usfms := none }

/-- The empty JSON object `{}` used as the default for a missing nested
`image`. -/
def emptyImageJson : ImageJson :=
  { url := none, attribution := none }

/-- `VerseOfTheDay`: fields as set by `VerseOfTheDay.__init__`. -/
structure VerseOfTheDay where
  bible_version : BibleVersion
  day : Option Int
  verse : Verse
  image : Image
deriving DecidableEq, Repr

/-- `VerseOfTheDay.__init__`: `day` is taken verbatim from the response
(`json.get('day', None)`); the nested verse and image are constructed
from the nested objects, defaulting to `{}`. -/
def VerseOfTheDay.ofJson (bible_version : BibleVersion) (json : VotdJson) :
    VerseOfTheDay :=
  let verse := Verse.ofJson bible_version (json.verse.getD emptyVerseJson)
  { bible_version
    day := json.day
    verse
    image := Image.ofJson verse (json.image.getD emptyImageJson) }

/-- `Language.__dict__` as a key/value list in insertion order.  A class
dict holds, besides the language attributes of the class body, the
implicit entries `__module__`, `__qualname__`, `__doc__` (the class
docstring) and the `__dict__`/`__weakref__` descriptors; the latter two
are not strings, modelled here as `none`. -/
def languageDict : List (String × Option String) :=
  [ ("__module__", some "youversion.youversion")
  , ("__qualname__", some "Language")
  , ("__doc__", some "\n    Supported API languages\n    ")
  , ("Afrikaans", some "af")
  , ("Chinese_Simplified", some "zh_CN")
  , ("Chinese_Traditional", some "zh_TW")
  , ("Dutch", some "nl")
  , ("English", some "en")
  , ("French", some "fr")
  , ("German", some "de")
  , ("Greek", some "el")
  , ("Indonesian", some "id")
  , ("Italian", some "it")
  , ("Khmer", some "km")
  , ("Korean", some "ko")
  , ("Portuguese", some "pt")
  , ("Romanian", some "ro")
  , ("Russian", some "ru")
  , ("Spanish", some "es")
  , ("Swahili", some "sw")
  , ("Swedish", some "sv")
  , ("Tagalog", some "tl")
  , ("Filipino", some "tl")
  , ("Ukrainian", some "uk")
  , ("Vietnamese", some "vi")
  , ("Zulu", some "zu")
  , ("__dict__", none)
  , ("__weakref__", none) ]

/-- The language display names: the attributes written in the class body
of `Language`. -/
def languageNames : List String :=
  [ "Afrikaans", "Chinese_Simplified", "Chinese_Traditional", "Dutch"
  , "English", "French", "German", "Greek", "Indonesian", "Italian"
  , "Khmer", "Korean", "Portuguese", "Romanian", "Russian", "Spanish"
  , "Swahili", "Swedish", "Tagalog", "Filipino", "Ukrainian"
  , "Vietnamese", "Zulu" ]

/-- The language codes: the values of the attributes written in the class
body of `Language`. -/
def languageCodes : List String :=
  [ "af", "zh_CN", "zh_TW", "nl", "en", "fr", "de", "el", "id", "it"
  , "km", "ko", "pt", "ro", "ru", "es", "sw", "sv", "tl", "uk", "vi", "zu" ]

/-- JSON payload of the `versions` resource: the version list under
`data` (`none` when the key is absent, in which case the source iterates
over `None` and Python raises `TypeError`). -/
structure VersionsJson where
  data : Option (List VersionJson)
deriving DecidableEq, Repr

/-- JSON payload of the bulk `verse_of_the_day` resource.  `data = none`
covers every falsy-or-`data`-less response (the source returns the empty
triple for all of them before touching the other keys). -/
structure AllVotdJson where
  data : Option (List VotdJson)
  next_page : Option Bool
  page_size : Option Int
deriving DecidableEq, Repr

/-- One HTTP GET request as issued by `API._get`: the resource path and,
when the call passes `params`, the `version_id` parameter (itself the
optional `id` of the current Bible version). -/
structure Request where
  resource : String
  version_id : Option (Option Int)
deriving DecidableEq, Repr

/-- The request issued by the `bible_versions` property. -/
def versionsRequest : Request :=
  { resource := "versions", version_id := none }

/-- The remote service: what each resource would answer.  `none` models a
non-success HTTP status, on which `_get` raises (`raise_for_status`). -/
structure Server where
  versionsResp : Option VersionsJson
  votdResp : Int → Option VotdJson
  votdAllResp : Option AllVotdJson

/-- The `API` client state: token, current language (`__language`),
current Bible version (`__bible_version`), the version cache
(`_supported_bible_version`, an insertion-ordered mapping keyed by
abbreviation) and the ghost log of issued requests.  The stored language
is `Option String`: `none` models a non-string object stored by the
setter (a descriptor fetched from `Language.__dict__`). -/
structure API where
  token : String
  language : Option String
  bible_version : BibleVersion
  supported_bible_version : List (String × BibleVersion)
  requestLog : List Request
deriving DecidableEq, Repr

/-- The `API.language` setter: succeeds when the argument is a key of
`Language.__dict__` (storing the value found there) or one of that
dict's values (storing the argument unchanged); otherwise raises
`UnsupportedLanguage`. -/
def API.set_language (c : API) (language : String) : Except Exc Unit × API :=
  match languageDict.find? (fun p => p.1 = language) with
  | some p => (.ok (), { c with language := p.2 })
  | none =>
    if languageDict.any (fun p => p.2 = some language) then
      (.ok (), { c with language := some language })
    else
      (.error .unsupportedLanguage, c)

/-- One iteration of the loop in the `bible_versions` property: construct
the `BibleVersion` and insert it unless its abbreviation is already a
key. -/
def addVersion (acc : List (String × BibleVersion)) (d : VersionJson) :
    List (String × BibleVersion) :=
  let bible_version := BibleVersion.ofJson d
  if acc.any (fun p => p.1 = bible_version.abbreviation) then acc
  else acc ++ [(bible_version.abbreviation, bible_version)]

/-- The `bible_versions` property: when the cache is empty it issues a
GET for `versions` and fills the cache, first occurrence winning for a
duplicate abbreviation; otherwise it returns the cache as is, issuing no
request. -/
def API.bible_versions (c : API) (srv : Server) :
    Except Exc (List (String × BibleVersion)) × API :=
  if c.supported_bible_version.length ≤ 0 then
    let c1 := { c with requestLog := c.requestLog ++ [versionsRequest] }
    match srv.versionsResp with
    | none => (.error .httpError, c1)
    | some versions =>
      match versions.data with
      | none => (.error .typeError, c1)
      | some l =>
        let vs := l.foldl addVersion c.supported_bible_version
        (.ok vs, { c1 with supported_bible_version := vs })
  else
    (.ok c.supported_bible_version, c)

/-- `API.get_bible_version`: resolves through the `bible_versions`
property (triggering the lazy fetch), raising `InvalidBibleVersion` when
the abbreviation is not a key of the cache. -/
def API.get_bible_version (c : API) (srv : Server) (abbreviation : String) :
    Except Exc BibleVersion × API :=
  match c.bible_versions srv with
  | (.error e, c') => (.error e, c')
  | (.ok _, c') =>
    match c'.supported_bible_version.find? (fun p => p.1 = abbreviation) with
    | some p => (.ok p.2, c')
    | none => (.error .invalidBibleVersion, c')

/-- `API.supports_bible_version`: calls `get_bible_version`, catching
only `InvalidBibleVersion`. -/
def API.supports_bible_version (c : API) (srv : Server) (abbreviation : String) :
    Except Exc Bool × API :=
  match c.get_bible_version srv abbreviation with
  | (.ok _, c') => (.ok true, c')
  | (.error .invalidBibleVersion, c') => (.ok false, c')
  | (.error e, c') => (.error e, c')

/-- The `bible_version` setter's argument: a `BibleVersion` instance, a
string, or a value of any other type. -/
inductive BibleVersionOption where
  | version (v : BibleVersion)
  | str (s : String)
  | other
deriving DecidableEq, Repr

/-- The `API.bible_version` setter: a `BibleVersion` instance is stored
directly; a string is stored as its resolution when
`supports_bible_version` answers true; every other case raises
`InvalidBibleVersion` (and an exception escaping the resolution
propagates). -/
def API.set_bible_version (c : API) (srv : Server) (v : BibleVersionOption) :
    Except Exc Unit × API :=
  match v with
  | .version b => (.ok (), { c with bible_version := b })
  | .str s =>
    match c.supports_bible_version srv s with
    | (.ok true, c') =>
      match c'.get_bible_version srv s with
      | (.ok b, c2) => (.ok (), { c2 with bible_version := b })
      | (.error e, c2) => (.error e, c2)
    | (.ok false, c') => (.error .invalidBibleVersion, c')
    | (.error e, c') => (.error e, c')
  | .other => (.error .invalidBibleVersion, c)

/-- `API.get_verse_of_the_day(day)`: validates the bound before any
request, then issues a GET for `verse_of_the_day/{day}` with the current
version id and builds the `VerseOfTheDay` from the response. -/
def API.get_verse_of_the_day (c : API) (srv : Server) (day : Int) :
    Except Exc VerseOfTheDay × API :=
  if day < 1 ∨ day > 366 then
    (.error .dayOutOfBounds, c)
  else
    let c1 := { c with requestLog := c.requestLog ++
      [{ resource := "verse_of_the_day/" ++ toString day
         version_id := some c.bible_version.id }] }
    match srv.votdResp day with
    | none => (.error .httpError, c1)
    | some json => (.ok (VerseOfTheDay.ofJson c.bible_version json), c1)

/-- A call of `get_verse_of_the_day` with the `day` argument omitted.
Python evaluates the default `day=current_day_of_year()` once, when the
`def` statement executes at module import: `importDay` is that captured
value, and `callDay` is the day of the year of the date on which the
call is made.  Per Python default-argument semantics the call uses the
captured value, not the call-time day. -/
def get_verse_of_the_day_noarg (importDay : Int) (callDay : Int)
    (c : API) (srv : Server) : Except Exc VerseOfTheDay × API :=
  c.get_verse_of_the_day srv importDay

/-- `API.get_all_verse_of_the_days(limit, page)`: issues a GET for the
bulk resource (neither parameter is used by the body), returns the empty
triple when the response is falsy or lacks `data`, and otherwise the
server-reported `next_page` and `page_size` (defaulting to `False` and
the constructed list's length) with the constructed list. -/
def API.get_all_verse_of_the_days (c : API) (srv : Server)
    (limit : Int) (page : Int) :
    Except Exc (Bool × Int × Option (List VerseOfTheDay)) × API :=
  let c1 := { c with requestLog := c.requestLog ++
    [{ resource := "verse_of_the_day", version_id := some c.bible_version.id }] }
  match srv.votdAllResp with
  | none => (.error .httpError, c1)
  | some json =>
    match json.data with
    | none => (.ok (false, 0, none), c1)
    | some l =>
      let votds := l.map (VerseOfTheDay.ofJson c.bible_version)
      let next_page := json.next_page.getD false
      let page_size := json.page_size.getD (votds.length : Int)
      (.ok (next_page, page_size, some votds), c1)

/-- A freshly constructed client: token, English language, KJV default
version, empty cache (as set by `API.__init__`). -/
def sampleAPI : API :=
  { token := "token"
    language := some "en"
    bible_version := BibleVersion.KJV
    supported_bible_version := []
    requestLog := [] }

/-- A client whose version cache already holds an entry. -/
def filledAPI : API :=
  { sampleAPI with supported_bible_version := [("KJV", BibleVersion.KJV)] }

/-- A server on which every request gets a non-success HTTP status. -/
def sampleServer : Server :=
  { versionsResp := none, votdResp := fun _ => none, votdAllResp := none }

/-- A verse-of-the-day response carrying `day = 1`. -/
def votd1 : VotdJson := { day := some 1, verse := none, image := none }

/-- A verse-of-the-day response carrying `day = 2`. -/
def votd2 : VotdJson := { day := some 2, verse := none, image := none }

/-- A verse-of-the-day response carrying `day = 5`. -/
def votd5 : VotdJson := { day := some 5, verse := none, image := none }

/-- A verse-of-the-day response carrying `day = 90`. -/
def votd90 : VotdJson := { day := some 90, verse := none, image := none }

/-- A server answering the per-day resource for days 1 and 2 with the
matching responses. -/
def importServer : Server :=
  { versionsResp := none
    votdResp := fun d => if d = 1 then some votd1 else if d = 2 then some votd2 else none
    votdAllResp := none }

/-- A server whose version list is empty (`{'data': []}`). -/
def emptyVersionsServer : Server :=
  { versionsResp := some { data := some [] }
    votdResp := fun _ => none
    votdAllResp := none }

/-- A server whose bulk response reports `page_size = 5` while carrying a
single element under `data`. -/
def badCountServer : Server :=
  { versionsResp := none
    votdResp := fun _ => none
    votdAllResp := some { data := some [votd1], next_page := some false, page_size := some 5 } }

/-- A server that answers the request for day 90 with a response whose
`day` field is 5. -/
def echoBadServer : Server :=
  { versionsResp := none
    votdResp := fun d => if d = 90 then some votd5 else none
    votdAllResp := none }

/-- The KJV entry of the remote version list. -/
def kjvJson : VersionJson :=
  { id := some 1, title := some "King James Version", abbreviation := some "KJV"
    local_title := some "King James Version", local_abbreviation := some "KJV"
    copyright_short := some "Crown Copyright in UK" }

/-- The ASV entry of the remote version list. -/
def asvJson : VersionJson :=
  { id := some 12, title := some "American Standard Version", abbreviation := some "ASV"
    local_title := some "American Standard Version", local_abbreviation := some "ASV"
    copyright_short := none }

/-- The bulk response used as a well-behaved fixture: two days of data,
no further page, no reported page size. -/
def goodAllVotd : AllVotdJson :=
  { data := some [votd1, votd2], next_page := some false, page_size := none }

/-- A well-behaved server: a version list holding KJV and ASV, a
day-90 response whose `day` echoes the request, and the bulk fixture. -/
def goodServer : Server :=
  { versionsResp := some { data := some [kjvJson, asvJson] }
    votdResp := fun d => if d = 90 then some votd90 else none
    votdAllResp := some goodAllVotd }

/-- A verse built from the empty response, used to build a concrete
image. -/
def kjvVerse : Verse := Verse.ofJson BibleVersion.KJV emptyVerseJson

/-- A concrete image whose template URL holds one `{width}` and one
`{height}` placeholder. -/
def sampleImage : Image :=
  { verse := kjvVerse
    _url := "https://images.example/{width}x{height}/verse.jpg"
    attribution := "" }

theorem bible_versions_post_bible_version (c : API) (srv : Server) :
    (c.bible_versions srv).2.bible_version = c.bible_version := by
  simp only [API.bible_versions]
  split
  · split
    · rfl
    · split
      · rfl
      · rfl
  · rfl

theorem get_bible_version_post (c : API) (srv : Server) (a : String) :
    (c.get_bible_version srv a).2.bible_version = c.bible_version := by
  unfold API.get_bible_version
  have h := bible_versions_post_bible_version c srv
  rcases hb : c.bible_versions srv with ⟨res, c1⟩
  rw [hb] at h
  cases res with
  | error e => simpa using h
  | ok vs =>
    cases hf : c1.supported_bible_version.find? (fun p => p.1 = a) with
    | none => simpa [hf] using h
    | some p => simpa [hf] using h

theorem supports_bible_version_post (c : API) (srv : Server) (a : String) :
    (c.supports_bible_version srv a).2.bible_version = c.bible_version := by
  unfold API.supports_bible_version
  have h := get_bible_version_post c srv a
  rcases hg : c.get_bible_version srv a with ⟨res, c1⟩
  rw [hg] at h
  cases res with
  | ok b => simpa using h
  | error e => cases e <;> simpa using h


theorem supports_of_get_ok (c c1 : API) (srv : Server) (a : String) (b : BibleVersion)
    (h : c.get_bible_version srv a = (.ok b, c1)) :
    c.supports_bible_version srv a = (.ok true, c1) := by
  simp only [API.supports_bible_version]
  rw [h]

theorem supports_of_get_invalid (c c1 : API) (srv : Server) (a : String)
    (h : c.get_bible_version srv a = (.error .invalidBibleVersion, c1)) :
    c.supports_bible_version srv a = (.ok false, c1) := by
  simp only [API.supports_bible_version]
  rw [h]

theorem supports_of_get_error (c c1 : API) (srv : Server) (a : String) (e : Exc)
    (hne : e ≠ .invalidBibleVersion)
    (h : c.get_bible_version srv a = (.error e, c1)) :
    c.supports_bible_version srv a = (.error e, c1) := by
  simp only [API.supports_bible_version]
  rw [h]
  cases e <;> first | rfl | exact absurd rfl hne

theorem get_bible_version_idem (c c1 : API) (srv : Server) (s : String) (b : BibleVersion)
    (h : c.get_bible_version srv s = (.ok b, c1)) :
    c1.get_bible_version srv s = (.ok b, c1) := by
  unfold API.get_bible_version at h ⊢
  split at h
  · simp at h
  · rename_i vs cm hb
    split at h
    · rename_i p hf
      simp only [Prod.mk.injEq, Except.ok.injEq] at h
      obtain ⟨hpb, hcm⟩ := h
      subst hcm
      have hne : ¬ (cm.supported_bible_version.length ≤ 0) := by
        simp only [Nat.le_zero, List.length_eq_zero]
        intro hnil
        rw [hnil] at hf
        simp at hf
      have hbv : cm.bible_versions srv = (.ok cm.supported_bible_version, cm) := by
        unfold API.bible_versions
        rw [if_neg hne]
      simp [hbv, hf, hpb]
    · simp at h

theorem bible_versions_ok_state (c c1 : API) (srv : Server)
    (vs : List (String × BibleVersion))
    (h : c.bible_versions srv = (.ok vs, c1)) :
    c1.supported_bible_version = vs := by
  unfold API.bible_versions at h
  split at h
  · split at h
    · simp at h
    · split at h
      · simp at h
      · simp only [Prod.mk.injEq, Except.ok.injEq] at h
        obtain ⟨hvs, hc⟩ := h
        rw [← hc]
        exact hvs
  · simp only [Prod.mk.injEq, Except.ok.injEq] at h
    obtain ⟨hvs, hc⟩ := h
    rw [← hc, ← hvs]

theorem foldl_addVersion_find_some (a : String) (l : List VersionJson) :
    ∀ (acc : List (String × BibleVersion)) (p : String × BibleVersion),
      acc.find? (fun q => q.1 = a) = some p →
      (l.foldl addVersion acc).find? (fun q => q.1 = a) = some p := by
  induction l with
  | nil => intro acc p h; simpa using h
  | cons d rest ih =>
    intro acc p h
    rw [List.foldl_cons]
    apply ih
    simp only [addVersion]
    split
    · exact h
    · rw [List.find?_append, h]; rfl

theorem foldl_addVersion_find_none (a : String) (l : List VersionJson) :
    ∀ (acc : List (String × BibleVersion)),
      acc.find? (fun q => q.1 = a) = none →
      (l.foldl addVersion acc).find? (fun q => q.1 = a) =
        ((l.map BibleVersion.ofJson).find? (fun v => v.abbreviation = a)).map
          (fun v => (v.abbreviation, v)) := by
  induction l with
  | nil => intro acc h; simpa using h
  | cons d rest ih =>
    intro acc h
    rw [List.foldl_cons, List.map_cons]
    by_cases hk : (BibleVersion.ofJson d).abbreviation = a
    · have hany : ¬ (acc.any (fun q => q.1 = (BibleVersion.ofJson d).abbreviation) = true) := by
        rw [hk]
        simp only [List.any_eq_true]
        rintro ⟨x, hx, hpx⟩
        exact (List.find?_eq_none.mp h x hx) hpx
      have hstep : (addVersion acc d).find? (fun q => q.1 = a) =
          some ((BibleVersion.ofJson d).abbreviation, BibleVersion.ofJson d) := by
        simp only [addVersion]
        rw [if_neg hany, List.find?_append, h]
        simp [hk]
      rw [foldl_addVersion_find_some a rest _ _ hstep]
      rw [List.find?_cons_of_pos _ (by simp [hk])]
      simp
    · by_cases hany : acc.any (fun q => q.1 = (BibleVersion.ofJson d).abbreviation) = true
      · have hstep : addVersion acc d = acc := by
          simp only [addVersion]
          rw [if_pos hany]
        rw [hstep, ih acc h, List.find?_cons_of_neg _ (by simp [hk])]
      · have hstep : (addVersion acc d).find? (fun q => q.1 = a) = none := by
          simp only [addVersion]
          rw [if_neg hany, List.find?_append, h]
          simp [hk]
        rw [ih _ hstep, List.find?_cons_of_neg _ (by simp [hk])]

-- ==================== claim theorems ====================

/-- C1: the claim fails on the code.  `'__module__'` is neither a
language display name nor a language code, yet the setter accepts it and
stores `'youversion.youversion'` (the class's module name) instead of
raising `UnsupportedLanguage`, because the membership test runs over the
whole class dict, dunder entries included. -/
theorem language_setter_accepts_dunder_attribute :
    "__module__" ∉ languageNames ∧ "__module__" ∉ languageCodes ∧
    (sampleAPI.set_language "__module__").1 = .ok () ∧
    (sampleAPI.set_language "__module__").2.language = some "youversion.youversion" := by
  decide

/-- C2: the claim fails on the code.  The default day is evaluated once,
at module import: a client imported on a date with day-of-year 1 and
called with the argument omitted on a date with day-of-year 2 behaves as
`get_verse_of_the_day(day=1)`, not as `get_verse_of_the_day(day=2)`. -/
theorem votd_default_day_captured_at_import :
    get_verse_of_the_day_noarg 1 2 sampleAPI importServer =
      sampleAPI.get_verse_of_the_day importServer 1
    ∧ get_verse_of_the_day_noarg 1 2 sampleAPI importServer ≠
      sampleAPI.get_verse_of_the_day importServer 2 :=
  ⟨rfl, by decide⟩

/-- C3 counterexample: on a client whose cache is empty and a server
answering the version list with a non-success status,
`supports_bible_version` raises the transport error instead of returning
a Boolean. -/
theorem supports_bible_version_raises_on_transport_failure :
    (sampleAPI.supports_bible_version sampleServer "KJV").1 = .error .httpError := by
  decide

/-- C3 amended: `supports_bible_version` answers true exactly on the
abbreviations `get_bible_version` resolves, false exactly when it raises
`InvalidBibleVersion`, and propagates unchanged any other exception the
lookup raises (a transport error of the lazy fetch). -/
theorem supports_bible_version_consistent_with_get (c : API) (srv : Server) (a : String) :
    (∀ b c1, c.get_bible_version srv a = (.ok b, c1) →
      c.supports_bible_version srv a = (.ok true, c1))
    ∧ (∀ c1, c.get_bible_version srv a = (.error .invalidBibleVersion, c1) →
      c.supports_bible_version srv a = (.ok false, c1))
    ∧ (∀ e c1, e ≠ .invalidBibleVersion →
        c.get_bible_version srv a = (.error e, c1) →
      c.supports_bible_version srv a = (.error e, c1)) :=
  ⟨fun b c1 h => supports_of_get_ok c c1 srv a b h,
   fun c1 h => supports_of_get_invalid c c1 srv a h,
   fun e c1 hne h => supports_of_get_error c c1 srv a e hne h⟩

/-- Witness for the amended C3 at a concrete unknown abbreviation on a
server whose version list resolves. -/
theorem supports_bible_version_consistent_with_get_witness :
    sampleAPI.supports_bible_version goodServer "NOPE" =
      (.ok false, (sampleAPI.get_bible_version goodServer "NOPE").2) :=
  (supports_bible_version_consistent_with_get sampleAPI goodServer "NOPE").2.1
    (sampleAPI.get_bible_version goodServer "NOPE").2 (by decide)

/-- C4 counterexample: when the server's version list is `{'data': []}`,
nothing is cached and every access issues the request again — two
accesses on the same client log two `versions` requests, refuting "at
most once per client". -/
theorem bible_versions_fetches_twice_on_empty_response :
    ((sampleAPI.bible_versions emptyVersionsServer).2.bible_versions
        emptyVersionsServer).2.requestLog = [versionsRequest, versionsRequest] := by
  decide

/-- C4 amended: an access with a non-empty cache returns it unchanged
without issuing a request; after an access that returned a non-empty
mapping, a further access returns the same mapping with no state change
(hence no request); and an access from an empty cache caches, for each
abbreviation, the first version of the server's list carrying it. -/
theorem bible_versions_lazy_cache_first_wins (c : API) (srv : Server) :
    (c.supported_bible_version ≠ [] →
      c.bible_versions srv = (.ok c.supported_bible_version, c))
    ∧ (∀ vs c1, c.bible_versions srv = (.ok vs, c1) → vs ≠ [] →
        c1.bible_versions srv = (.ok vs, c1))
    ∧ (∀ l, c.supported_bible_version = [] →
        srv.versionsResp = some { data := some l } →
        ∀ a, (c.bible_versions srv).2.supported_bible_version.find?
            (fun p => p.1 = a) =
          ((l.map BibleVersion.ofJson).find? (fun v => v.abbreviation = a)).map
            (fun v => (v.abbreviation, v))) := by
  have lazy : ∀ (c2 : API), c2.supported_bible_version ≠ [] →
      c2.bible_versions srv = (.ok c2.supported_bible_version, c2) := by
    intro c2 hne
    unfold API.bible_versions
    rw [if_neg (by simpa [Nat.le_zero, List.length_eq_zero] using hne)]
  refine ⟨lazy c, ?_, ?_⟩
  · intro vs c1 h hne
    have hst := bible_versions_ok_state c c1 srv vs h
    rw [← hst] at hne ⊢
    exact lazy c1 hne
  · intro l hempty hresp a
    have hred : (c.bible_versions srv).2.supported_bible_version =
        l.foldl addVersion c.supported_bible_version := by
      unfold API.bible_versions
      rw [if_pos (by simp [hempty]), hresp]
    rw [hred, hempty]
    exact foldl_addVersion_find_none a l [] rfl

/-- Witness for the amended C4: a client with a filled cache gets it back
unchanged. -/
theorem bible_versions_lazy_cache_first_wins_witness :
    filledAPI.bible_versions sampleServer =
      (.ok filledAPI.supported_bible_version, filledAPI) :=
  (bible_versions_lazy_cache_first_wins filledAPI sampleServer).1 (by decide)

/-- C5 counterexample: a response carrying one element under `data` but
`page_size = 5` yields a triple whose reported count is 5 while the list
holds one element, refuting "length equals the reported count". -/
theorem get_all_votd_count_differs_from_length :
    (sampleAPI.get_all_verse_of_the_days badCountServer 366 1).1 =
      .ok (false, 5, some [VerseOfTheDay.ofJson BibleVersion.KJV votd1])
    ∧ ([VerseOfTheDay.ofJson BibleVersion.KJV votd1].length : Int) ≠ 5 := by
  decide

/-- C5 amended: the list component is `none` exactly when the response
is falsy or lacks `data`; the reported count is the server's `page_size`
when present, else the list's length — so the length equals the count
whenever the server omits `page_size` (or reports it accurately), but
not in general. -/
theorem get_all_votd_triple_shape (c : API) (srv : Server) (limit page : Int)
    (j : AllVotdJson) (hr : srv.votdAllResp = some j) :
    (j.data = none → (c.get_all_verse_of_the_days srv limit page).1 = .ok (false, 0, none))
    ∧ (∀ l, j.data = some l →
        (c.get_all_verse_of_the_days srv limit page).1 =
          .ok (j.next_page.getD false,
               j.page_size.getD ((l.map (VerseOfTheDay.ofJson c.bible_version)).length : Int),
               some (l.map (VerseOfTheDay.ofJson c.bible_version)))
        ∧ (j.page_size = none →
            j.page_size.getD ((l.map (VerseOfTheDay.ofJson c.bible_version)).length : Int) =
              ((l.map (VerseOfTheDay.ofJson c.bible_version)).length : Int))) := by
  constructor
  · intro hd
    simp [API.get_all_verse_of_the_days, hr, hd]
  · intro l hd
    refine ⟨?_, ?_⟩
    · simp [API.get_all_verse_of_the_days, hr, hd]
    · intro hp
      rw [hp]
      rfl

/-- Witness for the amended C5 on a concrete two-day response without a
reported `page_size`. -/
theorem get_all_votd_triple_shape_witness :
    (sampleAPI.get_all_verse_of_the_days goodServer 366 1).1 =
      .ok (goodAllVotd.next_page.getD false,
           goodAllVotd.page_size.getD
             ((([votd1, votd2]).map (VerseOfTheDay.ofJson sampleAPI.bible_version)).length : Int),
           some (([votd1, votd2]).map (VerseOfTheDay.ofJson sampleAPI.bible_version))) :=
  ((get_all_votd_triple_shape sampleAPI goodServer 366 1 goodAllVotd rfl).2
    [votd1, votd2] rfl).1

/-- C6: `limit` and `page` influence neither the issued request (the
request log of the returned client) nor the returned triple: two calls
on the same client and server with different parameter pairs are
identical in every observable component. -/
theorem get_all_votd_ignores_limit_and_page (c : API) (srv : Server)
    (limit page limit2 page2 : Int) :
    c.get_all_verse_of_the_days srv limit page =
      c.get_all_verse_of_the_days srv limit2 page2 := rfl

/-- C7 counterexample: requesting day 90 from a server whose response
carries `day = 5` returns a `VerseOfTheDay` whose `day` is 5, not 90:
the code copies the response's `day` and does not enforce the requested
day. -/
theorem votd_day_field_not_requested_day :
    (sampleAPI.get_verse_of_the_day echoBadServer 90).1 =
      .ok (VerseOfTheDay.ofJson BibleVersion.KJV votd5)
    ∧ (VerseOfTheDay.ofJson BibleVersion.KJV votd5).day ≠ some 90 := by
  decide

/-- C7 amended: `get_verse_of_the_day` raises `DayOutOfBounds`, leaving
the client untouched (no request issued), exactly when the day is
outside [1, 366]; for an in-range day with a successful response it
returns a `VerseOfTheDay` whose `day` field equals the response's `day`
value (which is the requested day only when the server echoes it). -/
theorem votd_day_bounds_and_response_day (c : API) (srv : Server) (day : Int) :
    (c.get_verse_of_the_day srv day = (.error .dayOutOfBounds, c) ↔
      day < 1 ∨ day > 366)
    ∧ (∀ j, srv.votdResp day = some j → 1 ≤ day → day ≤ 366 →
        (c.get_verse_of_the_day srv day).1 =
          .ok (VerseOfTheDay.ofJson c.bible_version j)
        ∧ (VerseOfTheDay.ofJson c.bible_version j).day = j.day) := by
  constructor
  · by_cases hd : day < 1 ∨ day > 366
    · simp [API.get_verse_of_the_day, hd]
    · simp only [API.get_verse_of_the_day, if_neg hd]
      cases hres : srv.votdResp day with
      | none => simp [hd, Prod.ext_iff]
      | some j => simp [hd, Prod.ext_iff]
  · intro j hj h1 h2
    have hd : ¬ (day < 1 ∨ day > 366) := by omega
    constructor
    · simp [API.get_verse_of_the_day, if_neg hd, hj]
    · rfl

/-- Witness for the amended C7 at day 90 on a server echoing the day. -/
theorem votd_day_bounds_and_response_day_witness :
    (sampleAPI.get_verse_of_the_day goodServer 90).1 =
      .ok (VerseOfTheDay.ofJson BibleVersion.KJV votd90)
    ∧ (VerseOfTheDay.ofJson BibleVersion.KJV votd90).day = votd90.day :=
  (votd_day_bounds_and_response_day sampleAPI goodServer 90).2 votd90
    (by decide) (by decide) (by decide)

/-- C8 counterexample: assigning the string `'KJV'` on a client with an
empty cache and a server answering the version list with a non-success
status raises the transport error, not `InvalidBibleVersion`, although
the abbreviation is not resolvable via the cache. -/
theorem set_bible_version_transport_error_not_invalid :
    (sampleAPI.set_bible_version sampleServer (.str "KJV")).1 = .error .httpError := by
  decide

/-- C8 amended: the setter stores a `BibleVersion` instance directly and
raises `InvalidBibleVersion` on a value of any other non-string type; a
string is resolved through the cache: it is stored when the lookup
succeeds, `InvalidBibleVersion` is raised when the lookup raises it, and
any other exception of the lookup (a transport error of the lazy fetch)
propagates unchanged instead. -/
theorem set_bible_version_resolution (c : API) (srv : Server) (v : BibleVersionOption) :
    (∀ b, v = .version b →
      c.set_bible_version srv v = (.ok (), { c with bible_version := b }))
    ∧ (v = .other → c.set_bible_version srv v = (.error .invalidBibleVersion, c))
    ∧ (∀ s b c1, v = .str s → c.get_bible_version srv s = (.ok b, c1) →
        c.set_bible_version srv v = (.ok (), { c1 with bible_version := b }))
    ∧ (∀ s c1, v = .str s →
        c.get_bible_version srv s = (.error .invalidBibleVersion, c1) →
        c.set_bible_version srv v = (.error .invalidBibleVersion, c1))
    ∧ (∀ s e c1, v = .str s → e ≠ .invalidBibleVersion →
        c.get_bible_version srv s = (.error e, c1) →
        c.set_bible_version srv v = (.error e, c1)) := by
  refine ⟨?_, ?_, ?_, ?_, ?_⟩
  · intro b hv; subst hv; rfl
  · intro hv; subst hv; rfl
  · intro s b c1 hv hget; subst hv
    simp only [API.set_bible_version, supports_of_get_ok c c1 srv s b hget,
               get_bible_version_idem c c1 srv s b hget]
  · intro s c1 hv hget; subst hv
    simp only [API.set_bible_version, supports_of_get_invalid c c1 srv s hget]
  · intro s e c1 hv hne hget; subst hv
    simp only [API.set_bible_version, supports_of_get_error c c1 srv s e hne hget]

/-- Witness for the amended C8: assigning `'ASV'` on a well-behaved
server stores the resolved version. -/
theorem set_bible_version_resolution_witness :
    sampleAPI.set_bible_version goodServer (.str "ASV") =
      (.ok (), { (sampleAPI.get_bible_version goodServer "ASV").2 with
                  bible_version := BibleVersion.ofJson asvJson }) :=
  (set_bible_version_resolution sampleAPI goodServer (.str "ASV")).2.2.1
    "ASV" (BibleVersion.ofJson asvJson)
    (sampleAPI.get_bible_version goodServer "ASV").2 rfl (by decide)

/-- C9: `Image.url` raises `InvalidImageSize` exactly when a dimension
exceeds 1280; otherwise it returns the template with every `{width}` and
`{height}` occurrence replaced by the decimal renderings; and
`square_url size` is exactly `url size size`. -/
theorem image_url_size_validation (img : Image) (width height size : Int) :
    (img.url width height = .error .invalidImageSize ↔ width > 1280 ∨ height > 1280)
    ∧ (width ≤ 1280 → height ≤ 1280 →
        img.url width height =
          .ok (pyReplace (pyReplace img._url "{width}" (toString width))
                "{height}" (toString height)))
    ∧ img.square_url size = img.url size size := by
  refine ⟨?_, ?_, rfl⟩
  · by_cases hw : width > 1280 <;> by_cases hh : height > 1280 <;>
      simp [Image.url, Image._check_size, Image.MAX_SIZE, hw, hh]
  · intro hw hh
    simp [Image.url, Image._check_size, Image.MAX_SIZE, not_lt.mpr hw, not_lt.mpr hh]

/-- Witness for C9 at a concrete image and sizes 100 and 50. -/
theorem image_url_size_validation_witness :
    sampleImage.url 100 50 =
      .ok (pyReplace (pyReplace sampleImage._url "{width}" (toString (100 : Int)))
            "{height}" (toString (50 : Int))) :=
  (image_url_size_validation sampleImage 100 50 0).2.1 (by decide) (by decide)

/-- C10: a language assignment failing with `UnsupportedLanguage` leaves
the stored language unchanged, and a bible-version assignment failing
with `InvalidBibleVersion` leaves the stored version unchanged. -/
theorem setters_atomic_on_failure (c : API) (srv : Server) (s : String)
    (v : BibleVersionOption) :
    ((c.set_language s).1 = .error .unsupportedLanguage →
      (c.set_language s).2.language = c.language)
    ∧ ((c.set_bible_version srv v).1 = .error .invalidBibleVersion →
      (c.set_bible_version srv v).2.bible_version = c.bible_version) := by
  constructor
  · unfold API.set_language
    split
    · intro h; simp at h
    · split
      · intro h; simp at h
      · intro _; rfl
  · cases v with
    | version b => intro h; simp [API.set_bible_version] at h
    | other => intro _; rfl
    | str s2 =>
      simp only [API.set_bible_version]
      split
      · rename_i c1 hsup
        split
        · intro h; simp at h
        · rename_i e c2 hget
          intro _
          have hs := supports_bible_version_post c srv s2
          rw [hsup] at hs
          have hg := get_bible_version_post c1 srv s2
          rw [hget] at hg
          simpa using hg.trans (by simpa using hs)
      · rename_i c1 hsup
        intro _
        have hs := supports_bible_version_post c srv s2
        rw [hsup] at hs
        simpa using hs
      · rename_i e c1 hsup
        intro _
        have hs := supports_bible_version_post c srv s2
        rw [hsup] at hs
        simpa using hs

/-- Witness for C10: a failing language assignment and a failing
bible-version assignment on a concrete client. -/
theorem setters_atomic_on_failure_witness :
    (sampleAPI.set_language "BAD_LANG").2.language = sampleAPI.language ∧
    (sampleAPI.set_bible_version sampleServer .other).2.bible_version =
      sampleAPI.bible_version :=
  ⟨(setters_atomic_on_failure sampleAPI sampleServer "BAD_LANG" .other).1 (by decide),
   (setters_atomic_on_failure sampleAPI sampleServer "BAD_LANG" .other).2 (by decide)⟩
